import Mathlib

/-!
Verification of `evolve.py` (hyperparameter evolution driver for the
Yolov5 + StrongSORT tracking repository).

The file shallowly embeds the Python code of `evolve.py`:

* `pySplit` models Python's `str.split(sep)` for a non-empty separator;
* `matchCore` / `matchAt` / `firstNumToken` model the leftmost greedy match of
  the regular expression pattern sign? digits* dots* digits+ used by
  `re.findall("[-+]?(?:\d*\.*\d+)", f)[0]`;
* `pyFloat` models Python's `float(str)` on such tokens (exact rationals);
* `objective_call_parse` models the report-parsing tail of
  `Objective.__call__`: `results.split('COMBINED')[2:-1]`, first-number
  extraction per piece, and the dict built from
  `zip(['HOTA','MOTA','IDF1'], ...)` with the three subscript lookups;
* `get_new_config` models `Objective.get_new_config` with the optuna trial
  object abstracted as a record of sampling functions;
* `Objective.call` models `Objective.__call__` including its reference to the
  module-level global `opt`;
* `save_plots`, `write_best_HOTA_params_to_config`, `mainRun`, `createStudy`,
  `joblibDump` and `parse_device` model the remaining program logic.

Exceptions raised by the Python code are modelled by `Except PyErr`;
Python floats are modelled by exact rationals.
-/

set_option linter.unusedVariables false

/-- Kinds of Python exceptions the embedded code can raise. -/
inductive PyErr where
  | indexError
  | valueError
  | keyError
  | nameError
  | fileNotFound
deriving DecidableEq

/-- `leadsWith pre l` is true when `pre` is an initial segment of `l`
(used to locate substring occurrences, as Python `str.split` does). -/
def leadsWith : List Char → List Char → Bool
  | [], _ => true
  | _ :: _, [] => false
  | a :: as, b :: bs => a == b && leadsWith as bs

/-- Index of the first occurrence of the non-empty separator `sep` in `s`,
scanning left to right (Python `str.find`). -/
def findSub (sep : List Char) : List Char → Option Nat
  | [] => if leadsWith sep [] then some 0 else none
  | c :: tl => if leadsWith sep (c :: tl) then some 0 else (findSub sep tl).map (· + 1)

/-- Fuel-indexed worker for `pySplit`.  Each recursive step removes at least
`sep.length ≥ 1` characters, so `s.length + 1` fuel is always sufficient. -/
def pySplitFuel (sep : List Char) : Nat → List Char → List (List Char)
  | 0, s => [s]
  | fuel + 1, s =>
    match findSub sep s with
    | none => [s]
    | some i => s.take i :: pySplitFuel sep fuel (s.drop (i + sep.length))

/-- Python `s.split(sep)` for a non-empty separator `sep`: the list of the
(possibly empty) pieces of `s` between consecutive occurrences of `sep`. -/
def pySplit (sep s : List Char) : List (List Char) := pySplitFuel sep (s.length + 1) s

/-- Length of the maximal digit run at the head of `l`. -/
def digitRunLen (l : List Char) : Nat := (l.takeWhile Char.isDigit).length

/-- Length of the maximal run of dots at the head of `l`. -/
def dotRunLen (l : List Char) : Nat := (l.takeWhile (· == '.')).length

/-- Greedy-with-backtracking match of the unsigned core pattern
digits* dots* digits+ at the head of `l`, following Python `re` semantics:
with `a`/`b`/`c` the maximal digit/dot/digit runs, the greedy attempt matches
`a + b + c` characters when `c ≥ 1`; otherwise backtracking of the leading
digits* quantifier yields a match of the first `a` digits when `a ≥ 1`. -/
def matchCore (l : List Char) : Option (List Char) :=
  let a := digitRunLen l
  let b := dotRunLen (l.drop a)
  let c := digitRunLen (l.drop (a + b))
  if c ≠ 0 then some (l.take (a + b + c))
  else if a ≠ 0 then some (l.take a)
  else none

/-- Match of the full pattern sign? digits* dots* digits+ at the head of `l`.
A leading sign is consumed only when the core pattern matches right after it
(at a sign character the core pattern itself can never match). -/
def matchAt (l : List Char) : Option (List Char) :=
  match l with
  | [] => none
  | c :: tl => if c == '+' || c == '-' then (matchCore tl).map (c :: ·) else matchCore l

/-- Leftmost match of the numeric pattern in `l`:
`re.findall("[-+]?(?:\d*\.*\d+)", f)[0]` when a match exists. -/
def firstNumToken : List Char → Option (List Char)
  | [] => none
  | c :: tl =>
    match matchAt (c :: tl) with
    | some m => some m
    | none => firstNumToken tl

/-- Value of a digit string as a natural number. -/
def digitsToNat (l : List Char) : Nat := l.foldl (fun a c => 10 * a + (c.toNat - 48)) 0

/-- Python `float` on an unsigned token made of digits and dots: accepts
digits* [ '.' digits* ] with at least one digit overall and consumes the whole
token; a second dot raises `ValueError` (modelled as `none`). -/
def pyFloatCore (l : List Char) : Option ℚ :=
  let ip := l.takeWhile Char.isDigit
  let rest := l.drop ip.length
  match rest with
  | [] => if ip.isEmpty then none else some ((digitsToNat ip : ℕ) : ℚ)
  | '.' :: fr =>
    let fp := fr.takeWhile Char.isDigit
    if !(fr.drop fp.length).isEmpty then none
    else if ip.isEmpty && fp.isEmpty then none
    else some (((digitsToNat ip : ℕ) : ℚ) + ((digitsToNat fp : ℕ) : ℚ) / (10 : ℚ) ^ fp.length)
  | _ => none

/-- Python `float(tok)` for a token produced by the numeric pattern:
an optional sign followed by digits and dots. -/
def pyFloat (l : List Char) : Option ℚ :=
  match l with
  | '+' :: tl => pyFloatCore tl
  | '-' :: tl => (pyFloatCore tl).map Neg.neg
  | _ => pyFloatCore l

/-- `float(re.findall("[-+]?(?:\d*\.*\d+)", f)[0])` on one report piece `f`:
`IndexError` when the piece holds no numeric token, `ValueError` when the
token is not a valid float literal (more than one dot). -/
def extractFirstFloat (f : List Char) : Except PyErr ℚ :=
  match firstNumToken f with
  | none => Except.error PyErr.indexError
  | some tok =>
    match pyFloat tok with
    | none => Except.error PyErr.valueError
    | some q => Except.ok q

/-- The Python slice `results.split('COMBINED')[2:-1]`. -/
def combined_pieces (results : String) : List (List Char) :=
  ((pySplit "COMBINED".data results.data).drop 2).dropLast

/-- The list comprehension
`[float(re.findall(...)[0]) for f in results.split('COMBINED')[2:-1]]`,
propagating the first raised exception. -/
def extract_combined : List (List Char) → Except PyErr (List ℚ)
  | [] => Except.ok []
  | f :: rest =>
    match extractFirstFloat f with
    | Except.error e => Except.error e
    | Except.ok q =>
      match extract_combined rest with
      | Except.error e => Except.error e
      | Except.ok qs => Except.ok (q :: qs)

/-- The value-extraction part of `Objective.__call__` applied to the textual
report `results` returned by the evaluation run. -/
def objective_call_vals (results : String) : Except PyErr (List ℚ) :=
  extract_combined (combined_pieces results)

/-- The full report-parsing tail of `Objective.__call__`: extract the values,
build the dict `{key: value for key, value in zip(['HOTA','MOTA','IDF1'], ...)}`
and return the tuple of the three subscript lookups (a missing key raises
`KeyError`). -/
def objective_call_parse (results : String) : Except PyErr (ℚ × ℚ × ℚ) :=
  match objective_call_vals results with
  | Except.error e => Except.error e
  | Except.ok vals =>
    let d := List.zip ["HOTA", "MOTA", "IDF1"] vals
    match d.lookup "HOTA", d.lookup "MOTA", d.lookup "IDF1" with
    | some h, some m, some i => Except.ok (h, m, i)
    | _, _, _ => Except.error PyErr.keyError

/-- One tracker-config value: bool, float, int or string (the value kinds that
appear in the dicts built by `get_new_config`). -/
inductive CVal where
  | b (x : Bool)
  | q (x : ℚ)
  | i (x : Int)
  | s (x : String)
deriving DecidableEq

/-- A flat parameter-name/value mapping (one tracker's config section,
and also an optuna trial's `params` dict). -/
abbrev ParamMap := List (String × CVal)

/-- The dict `d` built by `get_new_config`: tracker-type name mapped to its
flat parameter mapping (empty when no branch fires). -/
abbrev ConfigDoc := List (String × ParamMap)

/-- The fields of the parsed argparse namespace `opt` that `evolve.py` reads
or writes.  `track_thres` models the attribute created dynamically by the
bytetrack branch of `get_new_config`. -/
structure Opt where
  tracking_method : String
  tracking_config : String
  conf_thres : ℚ
  track_thres : ℚ
  n_trials : Int
  resume : Bool
  device : List (Int ⊕ String)

/-- The optuna trial object, abstracted as a record of sampling functions,
one per suggest call shape used by `get_new_config`: `suggest_float name lo hi`,
`suggest_int name lo hi step`, and `suggest_categorical name choices` at each
element type that occurs. -/
structure Trial where
  suggest_float : String → ℚ → ℚ → ℚ
  suggest_int : String → Int → Int → Int → Int
  suggest_categorical_bool : String → List Bool → Bool
  suggest_categorical_rat : String → List ℚ → ℚ
  suggest_categorical_int : String → List Int → Int
  suggest_categorical_str : String → List String → String

/-- `Objective.get_new_config(trial)`: per tracker type, draw the declared
parameters and build the dict `d` that is dumped over the tracker's config
file.  The returned pair is the updated `self.opt` (the Python code mutates it
in place) and the written document.  Note that the Python `if/elif` chain has
no final `else`: any other `tracking_method` leaves `d` empty. -/
def get_new_config (o : Opt) (trial : Trial) : Opt × ConfigDoc :=
  if o.tracking_method = "strongsort" then
    let o' := { o with conf_thres := trial.suggest_float "conf_thres" 0.35 0.55 }
    let iou_thresh := trial.suggest_float "iou_thresh" 0.1 0.4
    let ecc := trial.suggest_categorical_bool "ecc" [true, false]
    let ema_alpha := trial.suggest_float "ema_alpha" 0.7 0.95
    let max_dist := trial.suggest_float "max_dist" 0.1 0.4
    let max_iou_dist := trial.suggest_float "max_iou_dist" 0.5 0.9
    let max_age := trial.suggest_int "max_age" 10 200 10
    let n_init := trial.suggest_int "n_init" 1 3 1
    let mc_lambda := trial.suggest_categorical_rat "mc_lambda" [0.995]
    let nn_budget := trial.suggest_categorical_int "nn_budget" [100]
    let max_unmatched_preds := trial.suggest_categorical_int "max_unmatched_preds" [0]
    (o', [("strongsort",
      [("ecc", CVal.b ecc),
       ("mc_lambda", CVal.q mc_lambda),
       ("ema_alpha", CVal.q ema_alpha),
       ("max_dist", CVal.q max_dist),
       ("max_iou_dist", CVal.q max_iou_dist),
       ("max_unmatched_preds", CVal.i max_unmatched_preds),
       ("max_age", CVal.i max_age),
       ("n_init", CVal.i n_init),
       ("nn_budget", CVal.i nn_budget)])])
  else if o.tracking_method = "bytetrack" then
    let o' := { o with track_thres := trial.suggest_float "track_thres" 0.35 0.55 }
    let track_buffer := trial.suggest_int "track_buffer" 10 60 10
    let match_thresh := trial.suggest_float "match_thresh" 0.7 0.9
    (o', [("bytetrack",
      [("track_thresh", CVal.q o'.conf_thres),
       ("match_thresh", CVal.q match_thresh),
       ("track_buffer", CVal.i track_buffer),
       ("frame_rate", CVal.i 30)])])
  else if o.tracking_method = "ocsort" then
    let o' := { o with conf_thres := trial.suggest_float "det_thresh" 0.35 0.55 }
    let max_age := trial.suggest_int "max_age" 10 60 10
    let min_hits := trial.suggest_int "min_hits" 1 5 1
    let iou_thresh := trial.suggest_float "iou_thresh" 0.1 0.4
    let delta_t := trial.suggest_int "delta_t" 1 5 1
    let asso_func := trial.suggest_categorical_str "asso_func" ["iou", "giou"]
    let inertia := trial.suggest_float "inertia" 0.1 0.4
    let use_byte := trial.suggest_categorical_bool "use_byte" [true, false]
    (o', [("ocsort",
      [("det_thresh", CVal.q o'.conf_thres),
       ("max_age", CVal.i max_age),
       ("min_hits", CVal.i min_hits),
       ("iou_thresh", CVal.q iou_thresh),
       ("delta_t", CVal.i delta_t),
       ("asso_func", CVal.s asso_func),
       ("inertia", CVal.q inertia),
       ("use_byte", CVal.b use_byte)])])
  else
    (o, [])

/-- `Objective.__call__(trial)`.  Line 154 runs `self.get_new_config(trial)`
(which overwrites the tracker config file); line 156 then runs
`self.run(opt)` where `opt` is the module-level global, not `self.opt`:
when no module global named `opt` exists this raises `NameError`.  The
evaluation collaborator `self.run` (inherited from `val.Evaluator`) is
abstracted as a function from options to the textual report.  The result is
the updated `self.opt`, the written config document, and the trial outcome. -/
def Objective.call (selfOpt : Opt) (globalOpt : Option Opt) (trial : Trial)
    (run : Opt → String) : Opt × ConfigDoc × Except PyErr (ℚ × ℚ × ℚ) :=
  let p := get_new_config selfOpt trial
  (p.1, p.2,
    match globalOpt with
    | none => Except.error PyErr.nameError
    | some g => objective_call_parse (run g))

/-- One completed optuna trial as seen by the reporting code: its sequential
number, its objective values `(HOTA, MOTA, IDF1)` (accessed in the Python code
as `t.values[0]`, `t.values[1]`, `t.values[2]`), and its sampled params. -/
structure FrozenTrial where
  number : Nat
  values : ℚ × ℚ × ℚ
  params : ParamMap
deriving DecidableEq

/-- `t.values[0]`, the HOTA score of a trial. -/
def hotaOf (t : FrozenTrial) : ℚ := t.values.1

/-- Python `max(trials, key=lambda t: t.values[0])` starting from head `t`:
fold over the tail, replacing the current best exactly when a later trial's
key is strictly greater, so ties keep the earliest trial. -/
def maxByHOTA (t : FrozenTrial) (rest : List FrozenTrial) : FrozenTrial :=
  rest.foldl (fun cur x => if hotaOf x > hotaOf cur then x else cur) t

/-- What `write_best_HOTA_params_to_config` writes: the two header comment
lines carry the chosen trial's number and score triple, and the yaml body is
the dict `{opt.tracking_method: trial.params}`. -/
structure WrittenConfig where
  headerTrialNumber : Nat
  headerScores : ℚ × ℚ × ℚ
  doc : ConfigDoc
deriving DecidableEq

/-- `write_best_HOTA_params_to_config(opt, study)` given `study.best_trials`:
pick `max(study.best_trials, key=lambda t: t.values[0])` and overwrite the
tracker config file with the annotated best params.  Python `max` on an empty
sequence raises `ValueError`, modelled as `none`. -/
def write_best_HOTA_params_to_config (o : Opt) (bestTrials : List FrozenTrial) :
    Option WrittenConfig :=
  match bestTrials with
  | [] => none
  | t :: rest =>
    let w := maxByHOTA t rest
    some { headerTrialNumber := w.number, headerScores := w.values,
           doc := [(o.tracking_method, w.params)] }

/-- `save_plots(opt, study)`: the list of html files written, in order.  The
Pareto-front plot is always written; the three per-objective parameter
importance plots are guarded by `if not opt.n_trials <= 1`. -/
def save_plots (o : Opt) : List String :=
  ["pareto_front_" ++ o.tracking_method ++ ".html"] ++
  (if ¬ o.n_trials ≤ 1 then
    ["HOTA_param_importances_" ++ o.tracking_method ++ ".html",
     "MOTA_param_importances_" ++ o.tracking_method ++ ".html",
     "IDF1_param_importances_" ++ o.tracking_method ++ ".html"]
   else [])

/-- An optuna study: the objective directions fixed at creation and the
accumulated trials. -/
structure Study where
  directions : List String
  trials : List FrozenTrial

/-- `objective_num = 3` from the `__main__` block. -/
def objective_num : Nat := 3

/-- `optuna.create_study(directions=['maximize']*objective_num)`:
a fresh study with three maximize directions and no trials. -/
def createStudy : Study :=
  { directions := List.replicate objective_num "maximize", trials := [] }

/-- The checkpoint file name `opt.tracking_method + "_study.pkl"`. -/
def studyFileName (method : String) : String := method ++ "_study.pkl"

/-- `joblib.dump(study, opt.tracking_method + "_study.pkl")` as a map update
on the file system (file name to stored study), overwriting whatever was
previously stored under that name. -/
def joblibDump (method : String) (s : Study) (fs : String → Option Study) :
    String → Option Study :=
  fun n => if n = studyFileName method then some s else fs n

/-- The `__main__` study lifecycle: load the checkpoint when `--resume` is
given (`joblib.load` raises when the file is missing), otherwise create a
fresh three-objective maximize study; run `study.optimize(...)` (the optuna
optimizer is abstracted as a function from study and trial count to study);
then dump the study to the tracker-named checkpoint file. -/
def mainRun (method : String) (resume : Bool) (nTrials : Nat)
    (fs : String → Option Study) (optimize : Study → Nat → Study) :
    Except PyErr (Study × (String → Option Study)) :=
  match (if resume then fs (studyFileName method) else some createStudy) with
  | none => Except.error PyErr.fileNotFound
  | some study0 =>
    let study := optimize study0 nTrials
    Except.ok (study, joblibDump method study fs)

/-- Python `int(a)` on one device token: an optional sign followed by at
least one digit parses to an integer, anything else raises `ValueError`.
(Surrounding whitespace and digit-group underscores, which Python would also
accept, do not occur in device strings and are not modelled.) -/
def pyInt (a : List Char) : Option Int :=
  match a with
  | '+' :: tl =>
    if !tl.isEmpty && tl.all Char.isDigit then some (Int.ofNat (digitsToNat tl)) else none
  | '-' :: tl =>
    if !tl.isEmpty && tl.all Char.isDigit then some (-(Int.ofNat (digitsToNat tl))) else none
  | l =>
    if !l.isEmpty && l.all Char.isDigit then some (Int.ofNat (digitsToNat l)) else none

/-- The device-parsing loop of `parse_opt`: split `opt.device` on commas and
try `int(a)` on each token; a `ValueError` is swallowed by `except ... pass`
and the token is appended unchanged as a string. -/
def parse_device (devString : String) : List (Int ⊕ String) :=
  (pySplit ",".data devString.data).map
    (fun a =>
      match pyInt a with
      | some n => Sum.inl n
      | none => Sum.inr (String.mk a))

/-- The synthetic report described by the claim for C1: three marker lines
embedding 55.2, 61.0 and 58.7, followed by one final marker line to discard. -/
def c1Report : String :=
  "MOT17 summary\nCOMBINED HOTA: 55.2\nCOMBINED MOTA: 61.0\nCOMBINED IDF1: 58.7\nCOMBINED TOTAL: 99.9\n"

/-- A synthetic report on which the actual slice `[2:-1]` does pick up
55.2, 61.0 and 58.7: five marker occurrences, with the text before the first,
the segment after the first, and the segment after the last all discarded. -/
def amendedReport : String :=
  "header COMBINED intro COMBINED 55.2 COMBINED 61.0 COMBINED 58.7 COMBINED tail"

/-- An options record whose tracker type has no declared parameter space. -/
def unknownOpt : Opt :=
  { tracking_method := "deepsort",
    tracking_config := "trackers/deepsort/configs/deepsort.yaml",
    conf_thres := 0.45, track_thres := 0, n_trials := 10, resume := false,
    device := [] }

/-- A concrete trial oracle: floats and ints take the lower bound of their
range, categoricals take the first choice. -/
def loTrial : Trial :=
  { suggest_float := fun _ lo _ => lo,
    suggest_int := fun _ lo _ _ => lo,
    suggest_categorical_bool := fun _ cs => cs.headD true,
    suggest_categorical_rat := fun _ cs => cs.headD 0,
    suggest_categorical_int := fun _ cs => cs.headD 0,
    suggest_categorical_str := fun _ cs => cs.headD "" }

/-- Options for a bytetrack run with the default `--conf-thres 0.45`. -/
def bytetrackOpt : Opt :=
  { tracking_method := "bytetrack",
    tracking_config := "trackers/bytetrack/configs/bytetrack.yaml",
    conf_thres := 0.45, track_thres := 0, n_trials := 10, resume := false,
    device := [] }

/-- A trial oracle that draws 0.5 for the parameter named `track_thres` and
the lower bound for everything else. -/
def bytetrackTrial : Trial :=
  { suggest_float := fun n lo _ => if n = "track_thres" then 0.5 else lo,
    suggest_int := fun _ lo _ _ => lo,
    suggest_categorical_bool := fun _ cs => cs.headD true,
    suggest_categorical_rat := fun _ cs => cs.headD 0,
    suggest_categorical_int := fun _ cs => cs.headD 0,
    suggest_categorical_str := fun _ cs => cs.headD "" }

/-- Witness for `extra_extracted_values_silently_dropped`: a report with six
marker occurrences from which four values (1, 2, 3, 4) are extracted; the
result keeps 1, 2, 3 and drops 4. -/
def manyValReport : String :=
  "A COMBINED B COMBINED 1 COMBINED 2 COMBINED 3 COMBINED 4 COMBINED Z"

/-- True when the report yields fewer than three extracted values: either the
extraction comprehension itself raises, or it returns fewer than three
numbers. -/
def extractedFewerThanThree (r : String) : Bool :=
  match objective_call_vals r with
  | Except.error _ => true
  | Except.ok vals => decide (vals.length < 3)

/-- Witness for `missing_scores_fail_loudly` at a concrete marker-free
report. -/
def plainReport : String := "no marker in this report"

/-- The spec-side predicate: `t` attains the maximal HOTA value among `l`. -/
def isMaxIn (l : List FrozenTrial) (t : FrozenTrial) : Bool :=
  l.all (fun u => decide (hotaOf u ≤ hotaOf t))

/-- The spec-side selection: the first trial of `l` whose HOTA value is
maximal among all of `l` (the claim's "maximum first-objective value among
the non-dominated trials, ties broken by whichever the front-search returns
first"). -/
def firstMaxHOTA (l : List FrozenTrial) : Option FrozenTrial :=
  l.find? (isMaxIn l)

/-- Two concrete non-dominated trials (trial 1 has the higher HOTA). -/
def demoTrialA : FrozenTrial :=
  { number := 0, values := (50, 60, 70), params := [("max_age", CVal.i 30)] }

def demoTrialB : FrozenTrial :=
  { number := 1, values := (55, 58, 69), params := [("max_age", CVal.i 40)] }

/-- Options used by the `best_HOTA_trial_written` witness. -/
def demoOpt : Opt :=
  { tracking_method := "strongsort",
    tracking_config := "trackers/strongsort/configs/strongsort.yaml",
    conf_thres := 0.45, track_thres := 0, n_trials := 2, resume := false,
    device := [] }

-- Sanity examples for the regex model (Python: re.findall on the same inputs).
example : firstNumToken " HOTA: 55.2".data = some "55.2".data := rfl
example : firstNumToken " IDF1: 58.7".data = some "1".data := rfl
example : firstNumToken "abc".data = none := rfl
example : firstNumToken "a-5".data = some "-5".data := rfl
example : firstNumToken "12.x".data = some "12".data := rfl

-- Sanity examples (Python: parse_opt on --device '0,1' and on defaults).
example : parse_device "0,1" = [Sum.inl 0, Sum.inl 1] := rfl
example : parse_device "" = [Sum.inr ""] := rfl
example : parse_device "cpu" = [Sum.inr "cpu"] := rfl

/-- C1 counterexample: on the claim's synthetic report (marker lines carrying
55.2, 61.0, 58.7 plus one final discarded marker line) the evaluator does not
return `{HOTA: 55.2, MOTA: 61.0, IDF1: 58.7}`: the slice `[2:-1]` drops the
segment after the first marker as well as the last, only two values survive,
and the lookup of `IDF1` raises `KeyError`. -/
theorem c1_slice_counterexample :
    objective_call_parse c1Report = Except.error PyErr.keyError ∧
    objective_call_parse c1Report ≠ Except.ok (55.2, 61.0, 58.7) := by
  have h : objective_call_parse c1Report = Except.error PyErr.keyError := rfl
  refine ⟨h, ?_⟩
  rw [h]
  intro hc
  exact Except.noConfusion hc

/-- C1 (amended): the extractor splits the report on the literal marker
`COMBINED` and keeps the segments after the second through next-to-last
occurrences (so the prefix, the segment after the first occurrence and the
segment after the last occurrence are all discarded), takes the first
float-or-int token of each kept segment, and maps the numbers positionally to
HOTA, MOTA, IDF1; on a synthetic report whose kept segments carry 55.2, 61.0
and 58.7 it returns exactly `{HOTA: 55.2, MOTA: 61.0, IDF1: 58.7}`. -/
theorem c1_slice_amended :
    objective_call_parse amendedReport = Except.ok (55.2, 61.0, 58.7) := by
  have h : objective_call_parse amendedReport =
      Except.ok (((55 : ℕ) : ℚ) + ((2 : ℕ) : ℚ) / (10 : ℚ) ^ (1 : ℕ),
                 ((61 : ℕ) : ℚ) + ((0 : ℕ) : ℚ) / (10 : ℚ) ^ (1 : ℕ),
                 ((58 : ℕ) : ℚ) + ((7 : ℕ) : ℚ) / (10 : ℚ) ^ (1 : ℕ)) := rfl
  rw [h]
  norm_num

/-- C2 counterexample: for the unrecognized tracker type `deepsort` no fatal
configuration error occurs.  `get_new_config` silently writes an empty
configuration document, and a full trial still runs and returns scores. -/
theorem c2_unknown_tracker_counterexample :
    (get_new_config unknownOpt loTrial).2 = [] ∧
    (Objective.call unknownOpt (some unknownOpt) loTrial
        (fun _ => amendedReport)).2.2 = Except.ok (55.2, 61.0, 58.7) := by
  constructor
  · rfl
  · have h : (Objective.call unknownOpt (some unknownOpt) loTrial
        (fun _ => amendedReport)).2.2 =
      Except.ok (((55 : ℕ) : ℚ) + ((2 : ℕ) : ℚ) / (10 : ℚ) ^ (1 : ℕ),
                 ((61 : ℕ) : ℚ) + ((0 : ℕ) : ℚ) / (10 : ℚ) ^ (1 : ℕ),
                 ((58 : ℕ) : ℚ) + ((7 : ℕ) : ℚ) / (10 : ℚ) ^ (1 : ℕ)) := rfl
    rw [h]
    norm_num

/-- C2 (amended): a parameter-proposal request for a tracker type with no
declared parameter space is not rejected: `get_new_config` raises no error,
leaves the options unchanged, and persists an empty configuration mapping
(the trial then proceeds to run). -/
theorem c2_unknown_tracker_amended (o : Opt) (t : Trial)
    (h1 : o.tracking_method ≠ "strongsort")
    (h2 : o.tracking_method ≠ "bytetrack")
    (h3 : o.tracking_method ≠ "ocsort") :
    get_new_config o t = (o, []) := by
  unfold get_new_config
  rw [if_neg h1, if_neg h2, if_neg h3]

/-- Witness for `c2_unknown_tracker_amended` at the concrete tracker type
`deepsort`. -/
theorem c2_unknown_tracker_amended_witness :
    get_new_config unknownOpt loTrial = (unknownOpt, []) :=
  c2_unknown_tracker_amended unknownOpt loTrial (by decide) (by decide) (by decide)

/-- C3 (code bug, bytetrack branch): the trial draws `track_thres = 0.5`, yet
the persisted `track_thresh` is `opt.conf_thres = 0.45`, not the drawn value;
the drawn value only lands in the write-only attribute `opt.track_thres`.
The line `'track_thresh': self.opt.conf_thres` contradicts the declared
parameter space, which samples a parameter named `track_thres` for this key. -/
theorem c3_bytetrack_track_thresh_code_bug :
    bytetrackTrial.suggest_float "track_thres" 0.35 0.55 = 0.5 ∧
    (get_new_config bytetrackOpt bytetrackTrial).2 =
      [("bytetrack",
        [("track_thresh", CVal.q 0.45),
         ("match_thresh", CVal.q 0.7),
         ("track_buffer", CVal.i 10),
         ("frame_rate", CVal.i 30)])] ∧
    (get_new_config bytetrackOpt bytetrackTrial).1.track_thres = 0.5 ∧
    (0.45 : ℚ) ≠ 0.5 := by
  refine ⟨rfl, rfl, rfl, by norm_num⟩

/-- C9: when more than three numeric values are extracted from the report,
`Objective.__call__` silently keeps the first three (mapped positionally to
HOTA, MOTA, IDF1) and discards the rest without any error: `zip` truncates at
the shorter key list. -/
theorem extra_extracted_values_silently_dropped (r : String) (v0 v1 v2 : ℚ)
    (rest : List ℚ) (h : objective_call_vals r = Except.ok (v0 :: v1 :: v2 :: rest)) :
    objective_call_parse r = Except.ok (v0, v1, v2) := by
  unfold objective_call_parse
  rw [h]
  rfl

theorem extra_extracted_values_silently_dropped_witness :
    objective_call_vals manyValReport = Except.ok [1, 2, 3, 4] ∧
    objective_call_parse manyValReport = Except.ok (1, 2, 3) :=
  ⟨rfl, extra_extracted_values_silently_dropped manyValReport 1 2 3 [4] rfl⟩

/-- C10: `Objective.__call__` runs the evaluation as `self.run(opt)` where
`opt` is the module-level global.  First conjunct: with no global named `opt`
in scope the call raises `NameError` (before any evaluation runs).  Second
conjunct: the trial outcome depends only on the global options, never on the
instance's own `self.opt`, so `self.opt` can influence the evaluation only by
being the same object as the global. -/
theorem call_reads_module_global_opt :
    (∀ (s : Opt) (t : Trial) (run : Opt → String),
      (Objective.call s none t run).2.2 = Except.error PyErr.nameError) ∧
    (∀ (s₁ s₂ g : Opt) (t : Trial) (run : Opt → String),
      (Objective.call s₁ (some g) t run).2.2 = (Objective.call s₂ (some g) t run).2.2) :=
  ⟨fun _ _ _ => rfl, fun _ _ _ _ _ => rfl⟩

/-- C6: a study not started with `--resume` is created fresh with three
`maximize` directions and zero trials; `mainRun` then runs the requested
batch on that fresh study and serializes the resulting study to the file
`<tracking_method>_study.pkl`; the dump overwrites whatever any prior file
system held under that name (third conjunct holds for every prior `fs`). -/
theorem fresh_study_and_unconditional_checkpoint :
    (createStudy.directions = List.replicate 3 "maximize" ∧ createStudy.trials = []) ∧
    (∀ (method : String) (nTrials : Nat) (fs : String → Option Study)
        (optimize : Study → Nat → Study),
      mainRun method false nTrials fs optimize =
        Except.ok (optimize createStudy nTrials,
          joblibDump method (optimize createStudy nTrials) fs)) ∧
    (∀ (method : String) (s : Study) (fs : String → Option Study),
      joblibDump method s fs (studyFileName method) = some s) := by
  refine ⟨⟨rfl, rfl⟩, fun _ _ _ _ => rfl, fun method s fs => ?_⟩
  unfold joblibDump
  rw [if_pos rfl]

/-- C4: a report without the `COMBINED` marker yields fewer than three
extracted values (first conjunct), and whenever fewer than three values are
extracted — in particular whenever the marker is absent — `Objective.__call__`
raises an exception (`IndexError`, `ValueError` or `KeyError`) instead of
returning any default or zero score (second conjunct). -/
theorem missing_scores_fail_loudly :
    (∀ r : String, findSub "COMBINED".data r.data = none →
      extractedFewerThanThree r = true) ∧
    (∀ r : String, extractedFewerThanThree r = true →
      ∃ e, objective_call_parse r = Except.error e) := by
  constructor
  · intro r hnone
    have hsplit : pySplit "COMBINED".data r.data = [r.data] := by
      unfold pySplit pySplitFuel
      rw [hnone]
    unfold extractedFewerThanThree objective_call_vals combined_pieces
    rw [hsplit]
    rfl
  · intro r hfew
    unfold extractedFewerThanThree at hfew
    unfold objective_call_parse
    cases hv : objective_call_vals r with
    | error e => exact ⟨e, rfl⟩
    | ok vals =>
      rw [hv] at hfew
      have hlen : vals.length < 3 := of_decide_eq_true hfew
      match vals, hlen with
      | [], _ => exact ⟨PyErr.keyError, rfl⟩
      | [a], _ => exact ⟨PyErr.keyError, rfl⟩
      | [a, b], _ => exact ⟨PyErr.keyError, rfl⟩

theorem missing_scores_fail_loudly_witness :
    (findSub "COMBINED".data plainReport.data = none ∧
      extractedFewerThanThree plainReport = true) ∧
    ∃ e, objective_call_parse plainReport = Except.error e :=
  ⟨⟨rfl, missing_scores_fail_loudly.1 plainReport rfl⟩,
    missing_scores_fail_loudly.2 plainReport rfl⟩

/-- C8 counterexample: the malformed device tokens `banana` and
`0,banana` are not rejected: `parse_opt`'s loop completes normally and keeps
every non-integer token verbatim as a string, so no fatal configuration error
is reported. -/
theorem c8_malformed_device_counterexample :
    parse_device "banana" = [Sum.inr "banana"] ∧
    parse_device "0,banana" = [Sum.inl 0, Sum.inr "banana"] :=
  ⟨rfl, rfl⟩

/-- C8 (amended): `parse_opt` performs no device validation: every token of
the comma-split device string on which `int()` fails is silently kept as its
original string in the device list (the `ValueError` is swallowed by
`except ... pass`), and the program proceeds. -/
theorem c8_malformed_device_amended (dev : String) (a : List Char)
    (ha : a ∈ pySplit ",".data dev.data) (hn : pyInt a = none) :
    Sum.inr (String.mk a) ∈ parse_device dev := by
  unfold parse_device
  refine List.mem_map.mpr ⟨a, ha, ?_⟩
  rw [hn]

/-- Witness for `c8_malformed_device_amended` on `--device 0,banana`. -/
theorem c8_malformed_device_amended_witness :
    Sum.inr "banana" ∈ parse_device "0,banana" :=
  c8_malformed_device_amended "0,banana" "banana".data (by decide) (by decide)

/-- Strings of different lengths are different. -/
theorem string_ne_of_length_ne {s t : String} (h : s.length ≠ t.length) : s ≠ t :=
  fun e => h (congrArg String.length e)

/-- C7: for every option record, the Pareto-front plot file is produced
unconditionally, while the three per-objective parameter-importance plot
files are produced exactly when more than one trial was requested
(`if not opt.n_trials <= 1`): the too-few-trials case is excluded by this
guard up front rather than by catching a plotting error. -/
theorem pareto_always_importance_guarded (o : Opt) :
    ("pareto_front_" ++ o.tracking_method ++ ".html") ∈ save_plots o ∧
    ((("HOTA_param_importances_" ++ o.tracking_method ++ ".html") ∈ save_plots o ∧
      ("MOTA_param_importances_" ++ o.tracking_method ++ ".html") ∈ save_plots o ∧
      ("IDF1_param_importances_" ++ o.tracking_method ++ ".html") ∈ save_plots o) ↔
      1 < o.n_trials) := by
  have hlen : ∀ pre : String, pre.length = 23 →
      (pre ++ o.tracking_method ++ ".html") ≠
        ("pareto_front_" ++ o.tracking_method ++ ".html") := by
    intro pre hpre
    apply string_ne_of_length_ne
    rw [String.length_append, String.length_append, String.length_append,
      String.length_append, hpre]
    have h13 : ("pareto_front_" : String).length = 13 := rfl
    rw [h13]
    omega
  unfold save_plots
  by_cases h : o.n_trials ≤ 1
  · rw [if_neg (by simp [h]), List.append_nil]
    refine ⟨List.mem_singleton.mpr rfl, ?_⟩
    constructor
    · rintro ⟨hH, -, -⟩
      exact absurd (List.mem_singleton.mp hH) (hlen "HOTA_param_importances_" rfl)
    · intro h1
      omega
  · rw [if_pos h]
    refine ⟨List.mem_append_left _ (List.mem_singleton.mpr rfl), ?_⟩
    constructor
    · intro _
      omega
    · intro _
      refine ⟨?_, ?_, ?_⟩ <;> apply List.mem_append_right <;> simp

theorem isMaxIn_iff {l : List FrozenTrial} {t : FrozenTrial} :
    isMaxIn l t = true ↔ ∀ u ∈ l, hotaOf u ≤ hotaOf t := by
  simp [isMaxIn]

theorem find?_congr_on {α : Type} {p q : α → Bool} (l : List α)
    (h : ∀ a ∈ l, p a = q a) : l.find? p = l.find? q := by
  induction l with
  | nil => rfl
  | cons x xs ih =>
    have hx : p x = q x := h x (List.mem_cons_self x xs)
    by_cases hq : q x = true
    · rw [List.find?_cons_of_pos _ (hx ▸ hq), List.find?_cons_of_pos _ hq]
    · have hp : ¬ p x = true := fun hpx => hq (hx ▸ hpx)
      rw [List.find?_cons_of_neg _ hp, List.find?_cons_of_neg _ hq]
      exact ih fun a ha => h a (List.mem_cons_of_mem x ha)

/-- The fold implementing Python `max(..., key=lambda t: t.values[0])`
returns exactly the first trial attaining the maximal HOTA value. -/
theorem maxByHOTA_eq_firstMax (rest : List FrozenTrial) :
    ∀ t : FrozenTrial, (t :: rest).find? (isMaxIn (t :: rest)) = some (maxByHOTA t rest) := by
  induction rest with
  | nil =>
    intro t
    have ht : isMaxIn [t] t = true := isMaxIn_iff.mpr (by simp)
    rw [List.find?_cons_of_pos _ ht]
    rfl
  | cons x xs ih =>
    intro t
    have hstep : maxByHOTA t (x :: xs) =
        maxByHOTA (if hotaOf x > hotaOf t then x else t) xs := rfl
    by_cases hcmp : hotaOf t < hotaOf x
    · rw [hstep, if_pos hcmp]
      have hheadf : ¬ isMaxIn (t :: x :: xs) t = true := by
        intro hall
        exact absurd (isMaxIn_iff.mp hall x (by simp)) (not_le.mpr hcmp)
      rw [List.find?_cons_of_neg _ hheadf]
      have hcongr : ∀ a ∈ x :: xs, isMaxIn (t :: x :: xs) a = isMaxIn (x :: xs) a := by
        intro a ha
        by_cases hres : isMaxIn (x :: xs) a = true
        · have hfull : isMaxIn (t :: x :: xs) a = true := by
            refine isMaxIn_iff.mpr (fun u hu => ?_)
            rcases List.mem_cons.mp hu with hu | hu
            · subst hu
              exact le_trans (le_of_lt hcmp) (isMaxIn_iff.mp hres x (by simp))
            · exact isMaxIn_iff.mp hres u hu
          rw [hfull, hres]
        · have hfull : ¬ isMaxIn (t :: x :: xs) a = true := by
            intro hf
            exact hres (isMaxIn_iff.mpr
              (fun u hu => isMaxIn_iff.mp hf u (List.mem_cons_of_mem t hu)))
          rw [Bool.not_eq_true] at hfull hres
          rw [hfull, hres]
      rw [find?_congr_on _ hcongr]
      exact ih x
    · have hxle : hotaOf x ≤ hotaOf t := not_lt.mp hcmp
      rw [hstep, if_neg (by exact hcmp)]
      have ihx := ih t
      by_cases hhead : isMaxIn (t :: x :: xs) t = true
      · rw [List.find?_cons_of_pos _ hhead]
        have hhead' : isMaxIn (t :: xs) t = true := by
          refine isMaxIn_iff.mpr (fun u hu => ?_)
          refine isMaxIn_iff.mp hhead u ?_
          rcases List.mem_cons.mp hu with hu | hu
          · exact hu ▸ List.mem_cons_self t (x :: xs)
          · exact List.mem_cons_of_mem t (List.mem_cons_of_mem x hu)
        rw [List.find?_cons_of_pos _ hhead'] at ihx
        exact ihx
      · have hhead2 : ¬ isMaxIn (t :: xs) t = true := by
          intro h2
          refine hhead (isMaxIn_iff.mpr (fun u hu => ?_))
          rcases List.mem_cons.mp hu with hu | hu
          · exact hu ▸ le_refl _
          · rcases List.mem_cons.mp hu with hu | hu
            · exact hu ▸ hxle
            · exact isMaxIn_iff.mp h2 u (List.mem_cons_of_mem t hu)
        have hx2 : ¬ isMaxIn (t :: x :: xs) x = true := by
          intro hxall
          refine hhead (isMaxIn_iff.mpr (fun u hu => ?_))
          have htx : hotaOf t ≤ hotaOf x := isMaxIn_iff.mp hxall t (by simp)
          have hex : hotaOf x = hotaOf t := le_antisymm hxle htx
          exact hex ▸ isMaxIn_iff.mp hxall u hu
        rw [List.find?_cons_of_neg _ hhead, List.find?_cons_of_neg _ hx2]
        rw [List.find?_cons_of_neg _ hhead2] at ihx
        have hcongr : ∀ a ∈ xs, isMaxIn (t :: x :: xs) a = isMaxIn (t :: xs) a := by
          intro a ha
          by_cases hres : isMaxIn (t :: xs) a = true
          · have hfull : isMaxIn (t :: x :: xs) a = true := by
              refine isMaxIn_iff.mpr (fun u hu => ?_)
              rcases List.mem_cons.mp hu with hu | hu
              · exact hu ▸ isMaxIn_iff.mp hres t (List.mem_cons_self t xs)
              · rcases List.mem_cons.mp hu with hu | hu
                · refine hu ▸ le_trans hxle ?_
                  exact isMaxIn_iff.mp hres t (List.mem_cons_self t xs)
                · exact isMaxIn_iff.mp hres u (List.mem_cons_of_mem t hu)
            rw [hfull, hres]
          · have hfull : ¬ isMaxIn (t :: x :: xs) a = true := by
              intro hf
              refine hres (isMaxIn_iff.mpr (fun u hu => ?_))
              rcases List.mem_cons.mp hu with hu | hu
              · exact hu ▸ isMaxIn_iff.mp hf t (List.mem_cons_self t (x :: xs))
              · exact isMaxIn_iff.mp hf u
                  (List.mem_cons_of_mem t (List.mem_cons_of_mem x hu))
            rw [Bool.not_eq_true] at hfull hres
            rw [hfull, hres]
        rw [find?_congr_on _ hcongr]
        exact ihx

/-- C5: for a non-empty set of non-dominated trials, the trial whose
parameters `write_best_HOTA_params_to_config` writes is exactly the first
trial attaining the maximal first-objective (HOTA) value in the order the
front-search returned them (`firstMaxHOTA`), and the written file is
annotated with that trial's number and full score triple as its header. -/
theorem best_HOTA_trial_written (o : Opt) (bestTrials : List FrozenTrial)
    (h : bestTrials ≠ []) :
    ∃ w, firstMaxHOTA bestTrials = some w ∧
      write_best_HOTA_params_to_config o bestTrials =
        some { headerTrialNumber := w.number, headerScores := w.values,
               doc := [(o.tracking_method, w.params)] } := by
  match bestTrials with
  | [] => exact absurd rfl h
  | t :: rest => exact ⟨maxByHOTA t rest, maxByHOTA_eq_firstMax rest t, rfl⟩

/-- Witness for `best_HOTA_trial_written` on a concrete two-trial front. -/
theorem best_HOTA_trial_written_witness :
    ∃ w, firstMaxHOTA [demoTrialA, demoTrialB] = some w ∧
      write_best_HOTA_params_to_config demoOpt [demoTrialA, demoTrialB] =
        some { headerTrialNumber := w.number, headerScores := w.values,
               doc := [(demoOpt.tracking_method, w.params)] } :=
  best_HOTA_trial_written demoOpt [demoTrialA, demoTrialB] (List.cons_ne_nil _ _)
